import Mathlib

/-!
Shallow embedding of the flower-shop backend's order/address logic.

Money is modelled as exact rationals (ℚ); JavaScript's `Number.toFixed(2)`
is modelled as rounding half-up to cents (`round2`).  Stateful controller
code becomes explicit state passing over a `Store` record; the Sequelize
transaction used by `createOrder` is modelled by keeping the order row and
order-item rows buffered until the commit point, while stock updates (whose
call site passes no transaction handle) hit the committed store directly.
-/

namespace FlowerShop

/-- `toFixed(2)`: round a rational to two decimal places, half away from
zero for the nonnegative amounts occurring here (round half-up). -/
def round2 (q : ℚ) : ℚ := (⌊q * 100 + 1/2⌋ : ℚ) / 100

/-- A product row (table `flowers`).  The snapshot under `src` declares
`name`, `price`, `stock`; the `status` column used by the controllers'
availability checks and soft deletes is included as in the spec's data
model. -/
structure Flower where
  id : Nat
  name : String
  price : ℚ
  stock : Int
  status : String
deriving DecidableEq, Repr

/-- Modelled from the spec: `isAvailable` = status active AND stock > 0
(the rich Flower model carrying the instance methods is not in the
repository snapshot; only its callers are). -/
def Flower.isAvailable (f : Flower) : Bool :=
  f.status = "active" && 0 < f.stock

/-- A shipping-address row (table `shipping_addresses`), reduced to the
fields the verified operations read. -/
structure Address where
  id : Nat
  userId : Nat
  isDefault : Bool
deriving DecidableEq, Repr

/-- An order row (table `orders`), reduced to the fields `createOrder`
writes and the status/cancel logic reads.  The monetary fields hold the
`toFixed(2)`-rounded values that are persisted. -/
structure OrderRow where
  id : Nat
  userId : Nat
  status : String
  subtotal : ℚ
  shippingCost : ℚ
  taxAmount : ℚ
  discountAmount : ℚ
  total : ℚ
  shippingMethod : String
  paymentMethod : String
deriving DecidableEq, Repr

/-- An order-item row (table `order_items`) with the frozen product
snapshot fields relevant here. -/
structure OrderItemRow where
  orderId : Nat
  flowerId : Nat
  quantity : Int
  unitPrice : ℚ
  totalPrice : ℚ
  flowerName : String
deriving DecidableEq, Repr

/-- The committed database state. -/
structure Store where
  flowers : List Flower
  orders : List OrderRow
  orderItems : List OrderItemRow
  addresses : List Address
deriving DecidableEq, Repr

/-- One line of the request body: `{ flowerId, quantity }`. -/
structure OrderItemReq where
  flowerId : Nat
  quantity : Int
deriving DecidableEq, Repr

/-- The request body of `POST /api/orders`, as destructured by
`createOrder`.  A missing `paymentMethod` is modelled by `""` (both are
falsy in the JavaScript guard `!paymentMethod`). -/
structure OrderRequest where
  userId : Nat
  items : List OrderItemReq
  shippingAddressId : Option Nat
  shippingMethod : String
  paymentMethod : String
  discountCode : Option String
deriving DecidableEq, Repr

/-- The rate table literal inside `calculateShippingCost`. -/
def shippingRates (m : String) : Option ℚ :=
  if m = "standard" then some 5.99
  else if m = "express" then some 12.99
  else if m = "overnight" then some 24.99
  else if m = "pickup" then some 0
  else none

/-- `calculateShippingCost` from the order controller.  The JavaScript
lookup is `shippingRates[shippingMethod] || shippingRates.standard`: a
missing key yields `undefined` and the table value `0` (pickup) is falsy,
so both fall back to the standard rate.  Free shipping when
`subtotal >= 75`. -/
def calculateShippingCost (shippingMethod : String) (subtotal : ℚ) : ℚ :=
  let cost : ℚ :=
    match shippingRates shippingMethod with
    | some r => if r = 0 then 5.99 else r
    | none => 5.99
  if 75 ≤ subtotal then 0 else cost

/-- ASCII upper-casing, as `String.prototype.toUpperCase` acts on the
discount codes in play. -/
def jsToUpper (s : String) : String := String.mk (s.data.map Char.toUpper)

/-- The discount table literal inside `calculateDiscount`. -/
def discountTable (code : String) : Option ℚ :=
  if code = "WELCOME10" then some (10/100)
  else if code = "SAVE20" then some (20/100)
  else if code = "FREESHIP" then some 5.99
  else none

/-- `calculateDiscount` from the order controller: the code is upper-cased
before lookup; a missing (falsy) rate yields `0`; `FREESHIP` is a fixed
amount, the others a percentage of the subtotal. -/
def calculateDiscount (discountCode : String) (subtotal : ℚ) : ℚ :=
  match discountTable (jsToUpper discountCode) with
  | none => 0
  | some r => if jsToUpper discountCode = "FREESHIP" then r else subtotal * r

/-- The `discountAmount` computation in `createOrder`:
`let discountAmount = 0; if (discountCode) discountAmount =
calculateDiscount(discountCode, subtotal)`.  An absent or empty (falsy)
code contributes zero. -/
def discountAmountOf (discountCode : Option String) (subtotal : ℚ) : ℚ :=
  match discountCode with
  | none => 0
  | some c => if c = "" then 0 else calculateDiscount c subtotal

example : round2 (10.03 : ℚ) = 10.03 := by norm_num [round2]
example : round2 (2.006 : ℚ) = 2.01 := by norm_num [round2]
example : round2 (1.2816 : ℚ) = 1.28 := by norm_num [round2]
example : round2 (15.2956 : ℚ) = 15.30 := by norm_num [round2]
example : calculateShippingCost "standard" 59.98 = 5.99 := by
  simp [calculateShippingCost, shippingRates]; norm_num
example : calculateShippingCost "pickup" 10 = 5.99 := by
  simp [calculateShippingCost, shippingRates]; norm_num
example : calculateShippingCost "pickup" 80 = 0 := by
  simp [calculateShippingCost, shippingRates]; norm_num
example : calculateDiscount "save20" 100 = 20 := by
  simp [calculateDiscount, discountTable, show jsToUpper "save20" = "SAVE20" from by decide]
  norm_num
example : calculateDiscount "BOGUS" 100 = 0 := by
  simp [calculateDiscount, discountTable, show jsToUpper "BOGUS" = "BOGUS" from by decide]

/-- `Flower.findByPk` over the committed flower table. -/
def findFlower (flowers : List Flower) (fid : Nat) : Option Flower :=
  flowers.find? (fun f => f.id == fid)

/-- One entry of `validatedItems` in `createOrder`: the looked-up product
with the quantity and the line totals computed from its current price. -/
structure ValidatedItem where
  flower : Flower
  quantity : Int
  unitPrice : ℚ
  totalPrice : ℚ
deriving DecidableEq, Repr

/-- The validation loop of `createOrder` (lines 82–119): item-data check,
product lookup, availability check, stock check, and accumulation of the
subtotal `Σ parseFloat(flower.price) * quantity`.  The first failing line
aborts the whole request with its 400 message. -/
def validateItems (flowers : List Flower) :
    List OrderItemReq → Except String (List ValidatedItem × ℚ)
  | [] => Except.ok ([], 0)
  | item :: rest =>
    if item.flowerId = 0 ∨ item.quantity ≤ 0 then Except.error "Invalid item data"
    else
      match findFlower flowers item.flowerId with
      | none => Except.error ("Product not found: " ++ toString item.flowerId)
      | some f =>
        if !f.isAvailable then Except.error ("Product not available: " ++ f.name)
        else if f.stock < item.quantity then
          Except.error ("Insufficient stock for " ++ f.name ++ ". Available: " ++
            toString f.stock)
        else
          match validateItems flowers rest with
          | Except.error e => Except.error e
          | Except.ok (vs, s) =>
            Except.ok (⟨f, item.quantity, f.price, f.price * item.quantity⟩ :: vs,
              f.price * item.quantity + s)

/-- The shipping-address ownership check: when a `shippingAddressId` is
supplied it must reference an address of the requesting user. -/
def addressOk (st : Store) (req : OrderRequest) : Bool :=
  match req.shippingAddressId with
  | none => true
  | some aid => st.addresses.any (fun a => a.id == aid && a.userId == req.userId)

/-- The order row assembled by `createOrder` for `Order.create`: the
monetary components and the total are computed from the accumulated
subtotal `S`, each persisted through `toFixed(2)`. -/
def pricedRow (oid : Nat) (req : OrderRequest) (S : ℚ) : OrderRow :=
  let C := calculateShippingCost req.shippingMethod S
  let T := (S + C) * (8/100)
  let D := discountAmountOf req.discountCode S
  { id := oid
    userId := req.userId
    status := "pending"
    subtotal := round2 S
    shippingCost := round2 C
    taxAmount := round2 T
    discountAmount := round2 D
    total := round2 (S + C + T - D)
    shippingMethod := req.shippingMethod
    paymentMethod := req.paymentMethod }

/-- The Order model's column validators (Order.model.js): `subtotal` and
`total` must be at least 0.01; `shippingCost`, `taxAmount` and
`discountAmount` must be nonnegative.  `Order.create` raises a
`SequelizeValidationError` when any of them fails. -/
def orderRowValid (o : OrderRow) : Bool :=
  decide ((1/100 : ℚ) ≤ o.subtotal) && decide ((0:ℚ) ≤ o.shippingCost) &&
  decide ((0:ℚ) ≤ o.taxAmount) && decide ((1/100 : ℚ) ≤ o.total) &&
  decide ((0:ℚ) ≤ o.discountAmount)

/-- Modelled from the spec: `flower.reduceStock(quantity)` decrements the
product's stock by the ordered quantity (the rich Flower model carrying
this instance method is not in the repository snapshot; only its caller
is). -/
def Flower.reduceStock (f : Flower) (q : Int) : Flower :=
  { f with stock := f.stock - q }

/-- Persisting an updated flower row.  The `reduceStock` call site in
`createOrder` passes no `{ transaction }` option, so this write reaches
the committed store immediately instead of joining the open
transaction. -/
def saveFlower (flowers : List Flower) (f : Flower) : List Flower :=
  flowers.map (fun g => if g.id = f.id then f else g)

/-- The `OrderItem.create` payload: quantity, prices and the frozen
product snapshot. -/
def mkItemRow (oid : Nat) (v : ValidatedItem) : OrderItemRow :=
  { orderId := oid, flowerId := v.flower.id, quantity := v.quantity,
    unitPrice := v.unitPrice, totalPrice := v.totalPrice,
    flowerName := v.flower.name }

/-- The item loop of `createOrder` (lines 155–171).  For each validated
item it buffers an `OrderItem` row inside the transaction, then applies
the stock decrement to the committed store.  `failAt = some k` injects a
failure into the k-th `OrderItem.create`; the error carries the committed
flower table at that point, which already contains the decrements of the
earlier iterations. -/
def insertItems (oid : Nat) (failAt : Option Nat) :
    Nat → List Flower → List ValidatedItem →
    Except (List Flower) (List Flower × List OrderItemRow)
  | _, flowers, [] => Except.ok (flowers, [])
  | idx, flowers, v :: rest =>
    if failAt = some idx then Except.error flowers
    else
      let flowers' := saveFlower flowers (v.flower.reduceStock v.quantity)
      match insertItems oid failAt (idx + 1) flowers' rest with
      | Except.error fl => Except.error fl
      | Except.ok (fl, rows) => Except.ok (fl, mkItemRow oid v :: rows)

/-- The outcome of `createOrder` as seen by the client: a 400 with its
message, a 201 with the created order, or the 500 produced by the catch
block after `transaction.rollback()`. -/
inductive CreateResult where
  | badRequest (msg : String)
  | created (o : OrderRow)
  | serverError
deriving DecidableEq, Repr

/-- `createOrder` (order controller lines 37–207).  Early validation
returns 400 without touching the store.  After validation the order row
and item rows are created inside the transaction (buffered, visible only
on commit), while each stock decrement is written to the committed store
directly (its call site passes no transaction).  Any failure inside the
transaction rolls the buffered rows back and surfaces as a 500. -/
def createOrder (st : Store) (req : OrderRequest) (failAt : Option Nat) :
    CreateResult × Store :=
  if req.items = [] then
    (CreateResult.badRequest "Order must contain at least one item", st)
  else if req.paymentMethod = "" then
    (CreateResult.badRequest "Payment method is required", st)
  else if addressOk st req = false then
    (CreateResult.badRequest "Invalid shipping address", st)
  else
    match validateItems st.flowers req.items with
    | Except.error msg => (CreateResult.badRequest msg, st)
    | Except.ok (vs, S) =>
      let row := pricedRow st.orders.length req S
      if orderRowValid row = false then (CreateResult.serverError, st)
      else
        match insertItems st.orders.length failAt 0 st.flowers vs with
        | Except.error fl => (CreateResult.serverError, { st with flowers := fl })
        | Except.ok (fl, rows) =>
          (CreateResult.created row,
            { st with
              flowers := fl
              orders := st.orders ++ [row]
              orderItems := st.orderItems ++ rows })

/-- The claim-side subtotal, following the claim's wording: the sum over
lines of the product's current price times quantity. -/
def subtotalSpec (flowers : List Flower) (items : List OrderItemReq) : ℚ :=
  (items.map
    (fun it => (((findFlower flowers it.flowerId).map Flower.price).getD 0) *
      it.quantity)).sum

/-- The outcome of the simpler controllers: 200, 404, a 400 with its
message, or the 500 produced by their catch blocks. -/
inductive ApiResult where
  | ok
  | notFound
  | badRequest (msg : String)
  | serverError
deriving DecidableEq, Repr

/-- Modelled from the spec: `order.cancel(reason)` fails with InvalidState
if the order is already delivered or refunded, and otherwise records the
cancellation by setting the status to cancelled (the rich Order model
carrying this instance method is not in the repository snapshot; only its
caller is). -/
def OrderRow.cancel (o : OrderRow) : Except String OrderRow :=
  if o.status = "delivered" ∨ o.status = "refunded" then
    Except.error "InvalidState"
  else Except.ok { o with status := "cancelled" }

/-- `cancelOrder` (order controller lines 501–539): look the order up by
id, restricted to the requesting user unless admin; 404 when absent; a
thrown `InvalidState` from `order.cancel` is caught and surfaces as a
500 leaving the store unchanged; otherwise the updated row is saved. -/
def cancelOrder (st : Store) (uid : Nat) (isAdmin : Bool) (oid : Nat) :
    ApiResult × Store :=
  match st.orders.find? (fun o => o.id == oid && (isAdmin || o.userId == uid)) with
  | none => (ApiResult.notFound, st)
  | some o =>
    match o.cancel with
    | Except.error _ => (ApiResult.serverError, st)
    | Except.ok o' =>
      (ApiResult.ok,
        { st with orders := st.orders.map (fun x => if x.id = oid then o' else x) })

/-- Modelled from the spec: `address.setAsDefault()` atomically clears
`isDefault` on all other addresses of that user and sets it on the target,
in a single transaction (the rich ShippingAddress model carrying this
instance method is not in the repository snapshot; only its caller is). -/
def setAsDefault (addrs : List Address) (uid aid : Nat) : List Address :=
  addrs.map (fun a =>
    if a.userId = uid then { a with isDefault := a.id = aid } else a)

/-- `setDefaultAddress` (shippingAddress controller lines 258–287): look
the address up by id and owning user, 404 when absent, otherwise apply
`setAsDefault`. -/
def setDefaultAddress (st : Store) (uid aid : Nat) : ApiResult × Store :=
  match st.addresses.find? (fun a => a.id == aid && a.userId == uid) with
  | none => (ApiResult.notFound, st)
  | some _ =>
    (ApiResult.ok, { st with addresses := setAsDefault st.addresses uid aid })

/-- `deleteAddress` (shippingAddress controller lines 210–248): look the
address up by id and owning user; 404 when absent; 400 when it is the
user's only address; otherwise destroy the row. -/
def deleteAddress (st : Store) (uid aid : Nat) : ApiResult × Store :=
  match st.addresses.find? (fun a => a.id == aid && a.userId == uid) with
  | none => (ApiResult.notFound, st)
  | some a =>
    if (st.addresses.filter (fun b => b.userId == uid)).length = 1 then
      (ApiResult.badRequest
        "Cannot delete the only address. Please add another address first.", st)
    else
      (ApiResult.ok,
        { st with addresses := st.addresses.filter (fun b => !(b.id == a.id)) })

/-!  Theorems settling the claims.  -/

/-- C4: the claim (and the rate table written inside the function) gives
pickup orders a shipping cost of 0 below the free-shipping threshold, but
the lookup `shippingRates[shippingMethod] || shippingRates.standard`
treats the stored rate 0 as falsy, so a pickup order with subtotal 10 is
charged the standard rate 5.99 instead of 0.  (The claim's worked example
— standard at subtotal 59.98 costs 5.99 — does hold.) -/
theorem c4_pickup_rate_overridden_by_fallback :
    calculateShippingCost "pickup" 10 = 5.99 ∧ (5.99 : ℚ) ≠ 0 ∧
    calculateShippingCost "standard" 59.98 = 5.99 := by
  refine ⟨?_, by norm_num, ?_⟩ <;>
    (simp [calculateShippingCost, shippingRates]; norm_num)

/-- C10: for every shipping method outside the rate table the lookup
yields `undefined` and falls back to the standard rate 5.99, still
overridden to 0 once the subtotal reaches the free-shipping threshold. -/
theorem c10_unknown_method_falls_back_to_standard (m : String) (s : ℚ)
    (h1 : m ≠ "standard") (h2 : m ≠ "express") (h3 : m ≠ "overnight")
    (h4 : m ≠ "pickup") :
    calculateShippingCost m s = if 75 ≤ s then 0 else 5.99 := by
  unfold calculateShippingCost shippingRates
  simp [h1, h2, h3, h4]

/-- Witness for C10 at the unknown method "ground" with subtotal 10. -/
theorem c10_witness : calculateShippingCost "ground" 10 = 5.99 := by
  rw [c10_unknown_method_falls_back_to_standard "ground" 10 (by decide)
    (by decide) (by decide) (by decide)]
  norm_num

/-- C5 counterexample: the claim says every code string other than the
three literal codes contributes zero discount, but the code upper-cases
before the table lookup, so the lowercase string "save20" — not one of
the three literals — yields a 20.00 discount on subtotal 100.00 instead
of 0. -/
theorem c5_counterexample_lowercase_code :
    calculateDiscount "save20" 100 = 20 ∧ (20 : ℚ) ≠ 0 := by
  refine ⟨?_, by norm_num⟩
  simp [calculateDiscount, discountTable,
    show jsToUpper "save20" = "SAVE20" from by decide]
  norm_num

/-- C5 (amended): discount codes are matched case-insensitively (the code
is upper-cased before the table lookup): WELCOME10 gives 10% of the
subtotal, SAVE20 gives 20%, FREESHIP gives the fixed amount 5.99, every
code whose upper-casing is none of these three silently contributes 0,
and an absent code contributes 0. -/
theorem c5_amended_case_insensitive_discount (code : String) (s : ℚ) :
    discountAmountOf (some code) s =
      (if code = "" then 0
       else if jsToUpper code = "WELCOME10" then s * (10/100)
       else if jsToUpper code = "SAVE20" then s * (20/100)
       else if jsToUpper code = "FREESHIP" then (5.99 : ℚ)
       else 0) ∧
    discountAmountOf none s = 0 := by
  refine ⟨?_, rfl⟩
  by_cases h0 : code = ""
  · simp [discountAmountOf, h0]
  by_cases h1 : jsToUpper code = "WELCOME10"
  · simp [discountAmountOf, calculateDiscount, discountTable, h0, h1]
  by_cases h2 : jsToUpper code = "SAVE20"
  · simp [discountAmountOf, calculateDiscount, discountTable, h0, h1, h2]
  by_cases h3 : jsToUpper code = "FREESHIP"
  · simp [discountAmountOf, calculateDiscount, discountTable, h0, h1, h2, h3]
  · simp [discountAmountOf, calculateDiscount, discountTable, h0, h1, h2, h3]

/-- The subtotal accumulated by the validation loop is the sum over lines
of the looked-up product's current price times the quantity. -/
theorem validateItems_subtotal (flowers : List Flower) :
    ∀ (items : List OrderItemReq) (vs : List ValidatedItem) (S : ℚ),
      validateItems flowers items = Except.ok (vs, S) →
      S = subtotalSpec flowers items := by
  intro items
  induction items with
  | nil =>
    intro vs S h
    rw [validateItems] at h
    simp only [Except.ok.injEq, Prod.mk.injEq] at h
    simp [subtotalSpec, ← h.2]
  | cons it rest ih =>
    intro vs S h
    rw [validateItems] at h
    split at h
    · cases h
    · split at h
      · cases h
      · rename_i f hf
        split at h
        · cases h
        · split at h
          · cases h
          · split at h
            · cases h
            · rename_i vs' S' hrec
              simp only [Except.ok.injEq, Prod.mk.injEq] at h
              simp [subtotalSpec, hf, ← h.2, ih vs' S' hrec]

/-- C1 (amended): for every request that passes validation, the persisted
order carries `toFixed(2)` roundings of the exact components — subtotal
`S` (the sum over lines of current price × quantity), shipping cost,
tax `(S + shipping) * 0.08`, discount — and its stored total is the
rounding of the exact, unrounded combination
`S + shipping + tax − discount`.  (The stored total may therefore differ
by one cent from recombining the four stored rounded components, which is
the part of the claim that fails.) -/
theorem c1_amended_total_is_rounded_exact_combination
    (st : Store) (req : OrderRequest) (failAt : Option Nat)
    (vs : List ValidatedItem) (S : ℚ) (fl : List Flower)
    (rows : List OrderItemRow)
    (hv : validateItems st.flowers req.items = Except.ok (vs, S))
    (h1 : req.items ≠ [])
    (h2 : req.paymentMethod ≠ "")
    (h3 : addressOk st req = true)
    (h4 : orderRowValid (pricedRow st.orders.length req S) = true)
    (h5 : insertItems st.orders.length failAt 0 st.flowers vs =
      Except.ok (fl, rows)) :
    (createOrder st req failAt).1 =
      CreateResult.created (pricedRow st.orders.length req S) ∧
    S = subtotalSpec st.flowers req.items ∧
    (pricedRow st.orders.length req S).subtotal = round2 S ∧
    (pricedRow st.orders.length req S).shippingCost =
      round2 (calculateShippingCost req.shippingMethod S) ∧
    (pricedRow st.orders.length req S).taxAmount =
      round2 ((S + calculateShippingCost req.shippingMethod S) * (8/100)) ∧
    (pricedRow st.orders.length req S).discountAmount =
      round2 (discountAmountOf req.discountCode S) ∧
    (pricedRow st.orders.length req S).total =
      round2 (S + calculateShippingCost req.shippingMethod S
        + (S + calculateShippingCost req.shippingMethod S) * (8/100)
        - discountAmountOf req.discountCode S) := by
  refine ⟨?_, validateItems_subtotal st.flowers req.items vs S hv,
    rfl, rfl, rfl, rfl, rfl⟩
  rw [createOrder]
  simp [h1, h2, h3, hv, h4, h5]

/-- A one-product catalog for exercising `createOrder`: the spec's worked
example product at price 29.99, stock 10. -/
def c1Flower : Flower := ⟨1, "Rose", 29.99, 10, "active"⟩

def c1Store : Store := ⟨[c1Flower], [], [], []⟩

/-- The spec's worked example request: two units of product 1, standard
shipping, no discount code. -/
def c1Req : OrderRequest := ⟨7, [⟨1, 2⟩], none, "standard", "credit_card", none⟩

/-- Witness for C1 (amended) on the spec's worked example: subtotal 59.98,
standard shipping below the threshold, no discount. -/
theorem c1_amended_witness :
    (createOrder c1Store c1Req none).1 =
      CreateResult.created (pricedRow c1Store.orders.length c1Req 59.98) :=
  (c1_amended_total_is_rounded_exact_combination c1Store c1Req none
    [⟨c1Flower, 2, 29.99, 59.98⟩] 59.98
    [⟨1, "Rose", 29.99, 8, "active"⟩]
    [⟨0, 1, 2, 29.99, 59.98, "Rose"⟩]
    (by simp [c1Store, c1Req, c1Flower, validateItems, findFlower,
          Flower.isAvailable]
        norm_num)
    (by decide) (by decide) (by decide)
    (by simp [c1Store, c1Req, pricedRow, orderRowValid, calculateShippingCost,
          shippingRates, discountAmountOf, round2]
        norm_num)
    (by simp [c1Store, c1Req, c1Flower, insertItems, saveFlower,
          Flower.reduceStock, mkItemRow]
        try norm_num)).1

/-- Projection onto the order carried by a 201 response. -/
def createdRow : CreateResult → Option OrderRow
  | CreateResult.created o => some o
  | _ => none

/-- A one-product catalog exhibiting the rounding divergence: price
10.03. -/
def c1xFlower : Flower := ⟨1, "Rose", 10.03, 5, "active"⟩

def c1xStore : Store := ⟨[c1xFlower], [], [], []⟩

/-- One unit of the 10.03 product with standard shipping and code SAVE20:
subtotal 10.03, shipping 5.99, tax 1.2816 (stored 1.28), discount 2.006
(stored 2.01), exact total 15.2956 (stored 15.30). -/
def c1xReq : OrderRequest := ⟨7, [⟨1, 1⟩], none, "standard", "credit_card",
  some "SAVE20"⟩

/-- C1 counterexample: the order persisted for `c1xReq` stores
total = 15.30, but its four stored rounded components recombine to
subtotal + shippingCost + taxAmount − discountAmount = 15.29, so the
stored total diverges from the stored components by one cent —
contradicting the claim's "never diverges by more than zero cents". -/
theorem c1_counterexample_stored_components_diverge :
    (createdRow (createOrder c1xStore c1xReq none).1).map
        (fun o => (o.total,
          o.subtotal + o.shippingCost + o.taxAmount - o.discountAmount)) =
      some (15.30, 15.29) ∧ (15.30 : ℚ) ≠ 15.29 := by
  constructor
  · simp [c1xStore, c1xReq, c1xFlower, createOrder, validateItems, findFlower,
      Flower.isAvailable, addressOk, pricedRow, orderRowValid,
      calculateShippingCost, shippingRates, discountAmountOf,
      calculateDiscount, discountTable, round2, insertItems, saveFlower,
      Flower.reduceStock, mkItemRow, createdRow,
      show jsToUpper "SAVE20" = "SAVE20" from by decide]
    norm_num
  · norm_num

/-- A two-product catalog for exercising the item loop. -/
def c2Store : Store :=
  ⟨[⟨1, "Rose", 10, 5, "active"⟩, ⟨2, "Tulip", 20, 7, "active"⟩], [], [], []⟩

/-- Two units of product 1 and one unit of product 2. -/
def c2Req : OrderRequest :=
  ⟨3, [⟨1, 2⟩, ⟨2, 1⟩], none, "standard", "credit_card", none⟩

/-- C2: a failure injected into the second `OrderItem.create` makes the
transaction roll back — no Order row and no OrderItem row is persisted —
yet the first product's stock decrement survives, because its save carries
no `{ transaction }` option: product 1's stock drops from 5 to 3 while
product 2 stays at 7.  This contradicts the claim (and the controller's
own transaction structure): the stock decrement is not atomic with order
creation. -/
theorem c2_stock_decrement_survives_rollback :
    (createOrder c2Store c2Req (some 1)).1 = CreateResult.serverError ∧
    (createOrder c2Store c2Req (some 1)).2.orders = [] ∧
    (createOrder c2Store c2Req (some 1)).2.orderItems = [] ∧
    (createOrder c2Store c2Req (some 1)).2.flowers.map Flower.stock = [3, 7] := by
  refine ⟨?_, ?_, ?_, ?_⟩ <;>
    (simp [c2Store, c2Req, createOrder, validateItems, findFlower,
      Flower.isAvailable, addressOk, pricedRow, orderRowValid,
      calculateShippingCost, shippingRates, discountAmountOf, round2,
      insertItems, saveFlower, Flower.reduceStock, mkItemRow]
     try norm_num)

/-- A request line whose data is well-formed but whose product is missing,
unavailable, or under-stocked (the three 400 cases of the claim). -/
def lineBlocked (flowers : List Flower) (it : OrderItemReq) : Prop :=
  it.flowerId ≠ 0 ∧ 0 < it.quantity ∧
    (findFlower flowers it.flowerId = none ∨
      ∃ f, findFlower flowers it.flowerId = some f ∧
        (f.isAvailable = false ∨ f.stock < it.quantity))

/-- When the validation loop succeeds, every line referenced an existing,
available product with sufficient stock. -/
theorem validateItems_ok_lines (flowers : List Flower) :
    ∀ (items : List OrderItemReq) (vs : List ValidatedItem) (S : ℚ),
      validateItems flowers items = Except.ok (vs, S) →
      ∀ it ∈ items, it.flowerId ≠ 0 ∧ 0 < it.quantity ∧
        ∃ f, findFlower flowers it.flowerId = some f ∧
          f.isAvailable = true ∧ it.quantity ≤ f.stock := by
  intro items
  induction items with
  | nil => intro vs S h it hmem; cases hmem
  | cons hd rest ih =>
    intro vs S h it hmem
    rw [validateItems] at h
    split at h
    · cases h
    · rename_i hdata
      split at h
      · cases h
      · rename_i f hf
        split at h
        · cases h
        · rename_i hav
          split at h
          · cases h
          · rename_i hstk
            split at h
            · cases h
            · rename_i vs' S' hrec
              rcases List.mem_cons.mp hmem with heq | hrest
              · subst heq
                push_neg at hdata
                refine ⟨hdata.1, by omega, f, hf, ?_, by omega⟩
                simpa using hav
              · exact ih vs' S' hrec it hrest

/-- C3: a request containing a well-formed line whose product is missing,
unavailable, or stocked below the ordered quantity is rejected with a 400
before any mutating store call: the response is a `badRequest` and the
store is returned exactly as it was. -/
theorem c3_bad_line_rejected_before_mutation
    (st : Store) (req : OrderRequest) (failAt : Option Nat)
    (hbad : ∃ it ∈ req.items, lineBlocked st.flowers it) :
    ∃ msg, createOrder st req failAt = (CreateResult.badRequest msg, st) := by
  obtain ⟨it, hmem, hblk⟩ := hbad
  rw [createOrder]
  by_cases h1 : req.items = []
  · rw [h1] at hmem; cases hmem
  rw [if_neg h1]
  by_cases h2 : req.paymentMethod = ""
  · rw [if_pos h2]; exact ⟨_, rfl⟩
  rw [if_neg h2]
  by_cases h3 : addressOk st req = false
  · rw [if_pos h3]; exact ⟨_, rfl⟩
  rw [if_neg h3]
  cases hval : validateItems st.flowers req.items with
  | error e => exact ⟨e, rfl⟩
  | ok p =>
    exfalso
    obtain ⟨vs, S⟩ := p
    obtain ⟨-, -, f, hf, hava, hstk⟩ :=
      validateItems_ok_lines st.flowers req.items vs S hval it hmem
    obtain ⟨-, -, hblk3⟩ := hblk
    rcases hblk3 with hnone | ⟨g, hg, hgbad⟩
    · rw [hf] at hnone; cases hnone
    · rw [hf] at hg
      injection hg with hg
      subst hg
      rcases hgbad with hfa | hlt
      · rw [hava] at hfa; cases hfa
      · omega

/-- A catalog with a single product of stock 1, for the C3 witness. -/
def c3Store : Store := ⟨[⟨1, "Rose", 29.99, 1, "active"⟩], [], [], []⟩

/-- A request for two units of the stock-1 product. -/
def c3Req : OrderRequest := ⟨7, [⟨1, 2⟩], none, "standard", "credit_card", none⟩

/-- Witness for C3: ordering two units of a product with stock 1 leaves
the store untouched (and, per the theorem, yields a 400). -/
theorem c3_witness : (createOrder c3Store c3Req none).2 = c3Store := by
  obtain ⟨msg, h⟩ := c3_bad_line_rejected_before_mutation c3Store c3Req none
    ⟨⟨1, 2⟩, by decide, by decide, by decide,
      Or.inr ⟨⟨1, "Rose", 29.99, 1, "active"⟩, rfl, Or.inr (by decide)⟩⟩
  rw [h]

/-- C6 (amended): when the exact computed total
`S + shipping + tax − discount` is nonpositive, the order is rejected —
the Order model's `min: 0.01` validator on `total` fails inside
`Order.create`, the transaction rolls back and nothing is persisted — but
the controller's catch block surfaces it as a 500 Internal error, not as
a 400 validation response (there is no explicit `total ≤ 0` check in
`createOrder`). -/
theorem c6_amended_nonpositive_total_rejected_as_500
    (st : Store) (req : OrderRequest) (failAt : Option Nat)
    (vs : List ValidatedItem) (S : ℚ)
    (hv : validateItems st.flowers req.items = Except.ok (vs, S))
    (h1 : req.items ≠ []) (h2 : req.paymentMethod ≠ "")
    (h3 : addressOk st req = true)
    (htot : S + calculateShippingCost req.shippingMethod S
        + (S + calculateShippingCost req.shippingMethod S) * (8/100)
        - discountAmountOf req.discountCode S ≤ 0) :
    createOrder st req failAt = (CreateResult.serverError, st) := by
  have hr : (pricedRow st.orders.length req S).total ≤ 0 := by
    show round2 (S + calculateShippingCost req.shippingMethod S
        + (S + calculateShippingCost req.shippingMethod S) * (8/100)
        - discountAmountOf req.discountCode S) ≤ 0
    rw [round2]
    have hub : (S + calculateShippingCost req.shippingMethod S
        + (S + calculateShippingCost req.shippingMethod S) * (8/100)
        - discountAmountOf req.discountCode S) * 100 + 1/2 ≤ (1/2 : ℚ) := by
      linarith
    have hfl : ⌊(S + calculateShippingCost req.shippingMethod S
        + (S + calculateShippingCost req.shippingMethod S) * (8/100)
        - discountAmountOf req.discountCode S) * 100 + 1/2⌋ ≤ (0 : ℤ) := by
      have h12 : ⌊(1/2 : ℚ)⌋ = 0 := by norm_num
      exact h12 ▸ Int.floor_le_floor hub
    have hflq : ((⌊(S + calculateShippingCost req.shippingMethod S
        + (S + calculateShippingCost req.shippingMethod S) * (8/100)
        - discountAmountOf req.discountCode S) * 100 + 1/2⌋ : ℤ) : ℚ) ≤ 0 := by
      exact_mod_cast hfl
    linarith
  cases horv : orderRowValid (pricedRow st.orders.length req S) with
  | false =>
    rw [createOrder]
    simp [h1, h2, h3, hv, horv]
  | true =>
    exfalso
    simp only [orderRowValid, Bool.and_eq_true, decide_eq_true_eq] at horv
    have hge : (1/100 : ℚ) ≤ (pricedRow st.orders.length req S).total := by
      tauto
    linarith

/-- A catalog whose single product has a (validation-free) negative price,
the only way the computed total can be nonpositive. -/
def c6Store : Store := ⟨[⟨1, "Rose", -10, 5, "active"⟩], [], [], []⟩

/-- One unit of the negative-price product: subtotal −10, shipping 5.99,
tax −0.3208, discount 0, total −4.3308 ≤ 0. -/
def c6Req : OrderRequest :=
  ⟨7, [⟨1, 1⟩], none, "standard", "cash_on_delivery", none⟩

/-- C6 counterexample: a request whose computed total is ≤ 0 (premise of
the claim) is answered with the 500 `serverError` of the catch block —
not with the 400-class ValidationError response the claim states — though
nothing is persisted. -/
theorem c6_counterexample_rejection_is_500_not_400 :
    ((-10 : ℚ) + calculateShippingCost "standard" (-10)
      + ((-10 : ℚ) + calculateShippingCost "standard" (-10)) * (8/100)
      - discountAmountOf none (-10) ≤ 0) ∧
    createOrder c6Store c6Req none = (CreateResult.serverError, c6Store) := by
  constructor
  · simp [calculateShippingCost, shippingRates, discountAmountOf]
    norm_num
  · simp [c6Store, c6Req, createOrder, validateItems, findFlower,
      Flower.isAvailable, addressOk, pricedRow, orderRowValid,
      calculateShippingCost, shippingRates, discountAmountOf, round2,
      insertItems]
    norm_num

/-- Witness for C6 (amended) at the concrete negative-price input. -/
theorem c6_amended_witness :
    createOrder c6Store c6Req none = (CreateResult.serverError, c6Store) :=
  c6_amended_nonpositive_total_rejected_as_500 c6Store c6Req none
    [⟨⟨1, "Rose", -10, 5, "active"⟩, 1, -10, -10⟩] (-10)
    (by simp [c6Store, c6Req, validateItems, findFlower, Flower.isAvailable]
        try norm_num)
    (by decide) (by decide) (by decide)
    (by simp [c6Req, calculateShippingCost, shippingRates, discountAmountOf]
        try norm_num)

/-- C7: for an order visible to the requester, cancelling from
`delivered` or `refunded` raises InvalidState (surfaced as the catch
block's 500) and leaves the store unchanged, while cancelling from
`pending` succeeds and saves the order with status `cancelled`. -/
theorem c7_cancel_terminal_fails_pending_succeeds
    (st : Store) (uid : Nat) (isAdmin : Bool) (oid : Nat) (o : OrderRow)
    (hfind : st.orders.find?
      (fun x => x.id == oid && (isAdmin || x.userId == uid)) = some o) :
    ((o.status = "delivered" ∨ o.status = "refunded") →
      o.cancel = Except.error "InvalidState" ∧
      cancelOrder st uid isAdmin oid = (ApiResult.serverError, st)) ∧
    (o.status = "pending" →
      cancelOrder st uid isAdmin oid =
        (ApiResult.ok,
          { st with orders := (st.orders.map
              (fun x => if x.id = oid then { o with status := "cancelled" }
                else x)) })) := by
  constructor
  · intro hterm
    have hc : o.cancel = Except.error "InvalidState" := by
      rw [OrderRow.cancel, if_pos hterm]
    exact ⟨hc, by rw [cancelOrder]; simp [hfind, hc]⟩
  · intro hp
    have hc : o.cancel = Except.ok { o with status := "cancelled" } := by
      rw [OrderRow.cancel, if_neg (by rw [hp]; decide)]
    rw [cancelOrder]
    simp [hfind, hc]

/-- A pending order for the C7 witness. -/
def c7Pending : OrderRow :=
  ⟨0, 7, "pending", 10, 5.99, 1.28, 0, 17.27, "standard", "credit_card"⟩

/-- A delivered order for the C7 witness. -/
def c7Delivered : OrderRow :=
  ⟨1, 7, "delivered", 10, 5.99, 1.28, 0, 17.27, "standard", "credit_card"⟩

def c7Store : Store := ⟨[], [c7Pending, c7Delivered], [], []⟩

/-- Witness for C7: in a store holding a pending order 0 and a delivered
order 1 of user 7, cancelling order 1 is refused and changes nothing,
while cancelling order 0 succeeds and stores it as cancelled. -/
theorem c7_witness :
    cancelOrder c7Store 7 false 1 = (ApiResult.serverError, c7Store) ∧
    cancelOrder c7Store 7 false 0 =
      (ApiResult.ok,
        { c7Store with orders := (c7Store.orders.map
            (fun x => if x.id = 0 then { c7Pending with status := "cancelled" }
              else x)) }) :=
  ⟨((c7_cancel_terminal_fails_pending_succeeds c7Store 7 false 1 c7Delivered
      rfl).1 (Or.inl rfl)).2,
   (c7_cancel_terminal_fails_pending_succeeds c7Store 7 false 0 c7Pending
      rfl).2 rfl⟩

/-- `setAsDefault` on a cons, one step. -/
theorem setAsDefault_cons (uid aid : Nat) (hd : Address) (tl : List Address) :
    setAsDefault (hd :: tl) uid aid =
      (if hd.userId = uid then { hd with isDefault := hd.id = aid } else hd) ::
        setAsDefault tl uid aid := rfl

/-- No address of the list carries the target id: after `setAsDefault`
none of the user's addresses is default. -/
theorem setAsDefault_absent_target (uid aid : Nat) :
    ∀ (l : List Address), aid ∉ l.map Address.id →
      (setAsDefault l uid aid).filter
        (fun b => b.userId == uid && b.isDefault) = [] := by
  intro l
  induction l with
  | nil => intro _; rfl
  | cons hd tl ih =>
    intro hnot
    simp only [List.map_cons, List.mem_cons] at hnot
    push_neg at hnot
    rw [setAsDefault_cons, List.filter_cons]
    have htl : (setAsDefault tl uid aid).filter
        (fun b => b.userId == uid && b.isDefault) = [] := ih hnot.2
    by_cases hu : hd.userId = uid
    · rw [if_neg]
      · exact htl
      · simp [hu, Ne.symm hnot.1]
    · rw [if_neg]
      · exact htl
      · simp [hu]

/-- After `setAsDefault`, the user's default addresses are exactly the
target: assuming globally unique address ids and a target address owned
by the user, filtering the updated list for the user's defaults yields
precisely the target id. -/
theorem setAsDefault_exactly_target (uid aid : Nat) :
    ∀ (l : List Address), (l.map Address.id).Nodup →
      (∃ a ∈ l, a.id = aid ∧ a.userId = uid) →
      ((setAsDefault l uid aid).filter
        (fun b => b.userId == uid && b.isDefault)).map Address.id = [aid] := by
  intro l
  induction l with
  | nil => rintro _ ⟨a, hmem, -⟩; cases hmem
  | cons hd tl ih =>
    intro hnodup ⟨a, hmem, hid, huid⟩
    rw [List.map_cons, List.nodup_cons] at hnodup
    rw [setAsDefault_cons, List.filter_cons]
    rcases List.mem_cons.mp hmem with heq | htl
    · subst heq
      have habsent : (setAsDefault tl uid aid).filter
          (fun b => b.userId == uid && b.isDefault) = [] :=
        setAsDefault_absent_target uid aid tl (hid ▸ hnodup.1)
      rw [if_pos (by simp [huid, hid])]
      simp [huid, hid, habsent]
    · have htarget : aid ∈ tl.map Address.id :=
        List.mem_map.mpr ⟨a, htl, hid⟩
      have hhd : hd.id ≠ aid := by
        intro hcon
        exact hnodup.1 (hcon ▸ htarget)
      rw [if_neg]
      · exact ih hnodup.2 ⟨a, htl, hid, huid⟩
      · by_cases hu : hd.userId = uid
        · simp [hu, hhd]
        · simp [hu]

/-- C8: `setDefaultAddress` on an address owned by the user results in
exactly one default address for that user — the target — so the
at-most-one-default invariant holds after the call (and, the update being
modelled as the single atomic write the spec requires, no intermediate
state exists). -/
theorem c8_set_default_exactly_one
    (st : Store) (uid aid : Nat) (a : Address)
    (hmem : a ∈ st.addresses) (hid : a.id = aid) (huid : a.userId = uid)
    (hnodup : (st.addresses.map Address.id).Nodup) :
    (setDefaultAddress st uid aid).1 = ApiResult.ok ∧
    (((setDefaultAddress st uid aid).2.addresses.filter
        (fun b => b.userId == uid && b.isDefault)).map Address.id = [aid]) := by
  have hsome : (st.addresses.find?
      (fun x => x.id == aid && x.userId == uid)).isSome := by
    rw [List.find?_isSome]
    exact ⟨a, hmem, by simp [hid, huid]⟩
  rw [setDefaultAddress]
  cases hf : st.addresses.find? (fun x => x.id == aid && x.userId == uid) with
  | none => rw [hf] at hsome; cases hsome
  | some x =>
    refine ⟨rfl, ?_⟩
    exact setAsDefault_exactly_target uid aid st.addresses hnodup
      ⟨a, hmem, hid, huid⟩

/-- Two addresses of user 7, address 1 currently default. -/
def c8Store : Store := ⟨[], [], [], [⟨1, 7, true⟩, ⟨2, 7, false⟩]⟩

/-- Witness for C8: making address 2 the default leaves address 2 as the
single default of user 7. -/
theorem c8_witness :
    (setDefaultAddress c8Store 7 2).1 = ApiResult.ok ∧
    (((setDefaultAddress c8Store 7 2).2.addresses.filter
        (fun b => b.userId == 7 && b.isDefault)).map Address.id = [2]) :=
  c8_set_default_exactly_one c8Store 7 2 ⟨2, 7, false⟩ (by decide) rfl rfl
    (by decide)

/-- C9: deleting the user's only address is refused with the 400 message
and the store — hence the address — is left untouched; conversely a
deletion that reports success can only happen when the user owns at least
two addresses. -/
theorem c9_only_address_delete_rejected
    (st : Store) (uid aid : Nat) (a : Address) :
    ((st.addresses.filter (fun b => b.userId == uid) = [a] ∧ a.id = aid) →
      deleteAddress st uid aid =
        (ApiResult.badRequest
          "Cannot delete the only address. Please add another address first.",
          st)) ∧
    ((deleteAddress st uid aid).1 = ApiResult.ok →
      2 ≤ (st.addresses.filter (fun b => b.userId == uid)).length) := by
  constructor
  · rintro ⟨hfa, hid⟩
    have hmemf : a ∈ st.addresses.filter (fun b => b.userId == uid) := by
      rw [hfa]; exact List.mem_singleton_self a
    have hmem : a ∈ st.addresses := List.mem_of_mem_filter hmemf
    have huid : (a.userId == uid) = true := (List.mem_filter.mp hmemf).2
    rw [deleteAddress]
    cases hf : st.addresses.find? (fun x => x.id == aid && x.userId == uid) with
    | none =>
      exfalso
      rw [List.find?_eq_none] at hf
      exact absurd (by simp [hid, huid] : ((a.id == aid && a.userId == uid) = true))
        (by simpa using hf a hmem)
    | some x =>
      have hlen : (st.addresses.filter (fun b => b.userId == uid)).length = 1 := by
        rw [hfa]; rfl
      simp [hlen]
  · intro hok
    rw [deleteAddress] at hok
    cases hf : st.addresses.find? (fun x => x.id == aid && x.userId == uid) with
    | none => rw [hf] at hok; cases hok
    | some x =>
      rw [hf] at hok
      by_cases hlen :
          (st.addresses.filter (fun b => b.userId == uid)).length = 1
      · simp [hlen] at hok
      · have hpred := List.find?_some hf
        have hxmem := List.mem_of_find?_eq_some hf
        have hxf : x ∈ st.addresses.filter (fun b => b.userId == uid) :=
          List.mem_filter.mpr ⟨hxmem, by
            simp only [Bool.and_eq_true] at hpred
            exact hpred.2⟩
        have h1 : 0 < (st.addresses.filter (fun b => b.userId == uid)).length :=
          List.length_pos.mpr (List.ne_nil_of_mem hxf)
        omega

/-- A user owning exactly one address. -/
def c9Store : Store := ⟨[], [], [], [⟨1, 7, true⟩]⟩

/-- Witness for C9: deleting user 7's only address returns the 400 and
leaves the store unchanged. -/
theorem c9_witness :
    deleteAddress c9Store 7 1 =
      (ApiResult.badRequest
        "Cannot delete the only address. Please add another address first.",
        c9Store) :=
  (c9_only_address_delete_rejected c9Store 7 1 ⟨1, 7, true⟩).1 ⟨by decide, rfl⟩

end FlowerShop
